import Mathlib

set_option maxRecDepth 4000

/-
Verification of the news-RAG backend (query pipeline, ingestion
normalization/deduplication pipeline, query cache) against its design
specification.

The definitions below are a shallow embedding of the JavaScript source:

 * `cleanText`, `processRSSItem`, `ingestFromRSS`, `ingestAllSourcesBatch`,
   `dedupFilter`, `ingestWithDedupBatch` embed
   `backend/services/newsIngestionService.js` (class `NewsIngestionService`;
   the older `backend/services/newsIngestion.js` shares `cleanText` and the
   article-id derivation verbatim).
 * `searchSimilarDocuments`, `generateResponse`, `processQuery` embed
   `backend/services/rag.js` (class `RAGService`).
 * `cacheGet`, `cacheSet`, `handleMessage` embed the socket message handler
   (`socket/handlers.js`) together with the Redis query-cache methods
   `cacheQueryResult` / `getCachedQueryResult` of `RedisService`.

External collaborators (crypto md5, JSON.stringify, the Jina embedding
provider, the Qdrant client, the Gemini generation provider, Redis, the RSS
parser and the cheerio page scraper) are modelled as function parameters of
the environment records: the code consumes them through narrow contracts and
their internals are outside the embedded program.  JavaScript strings are
modelled as Lean strings (sequences of characters), numbers that index or
measure strings as Nat, similarity scores as Rat, wall-clock seconds as Nat,
and thrown exceptions as Option/Except values.
-/

-- ===== JavaScript string / truthiness primitives =====

-- Truthiness of a possibly-undefined JS string: undefined, null and the
-- empty string are falsy.
def truthyOpt : Option String → Bool
  | none => false
  | some s => s ≠ ""

-- The JS `a || b` operator on possibly-undefined strings: returns `a` when
-- truthy, otherwise `b` (which may itself be falsy or undefined).
def jsOr (a b : Option String) : Option String :=
  if truthyOpt a then a else b

-- The JS `a || d` operator with a defined (string) right operand.
def jsOrD (a : Option String) (d : String) : String :=
  if truthyOpt a then a.getD d else d

-- JS `array.slice(-n)`: the last `n` elements (the whole list when shorter).
def jsSliceLast {α : Type} (n : Nat) (l : List α) : List α :=
  l.drop (l.length - n)

-- ===== Character classes of the cleanText regexes =====

-- JS regex `\w`: ASCII letters, digits and underscore.
def isJsWordChar (c : Char) : Bool :=
  c.isAlphanum || c = '_'

-- JS regex `\s`: the ECMAScript WhiteSpace / LineTerminator set.
def isJsWs (c : Char) : Bool :=
  c = ' ' || c = '\t' || c = '\n' || c = '\r' || c = '\x0b' || c = '\x0c' ||
  c.toNat = 0xa0 || c.toNat = 0x1680 ||
  (0x2000 ≤ c.toNat && c.toNat ≤ 0x200a) ||
  c.toNat = 0x2028 || c.toNat = 0x2029 || c.toNat = 0x202f ||
  c.toNat = 0x205f || c.toNat = 0x3000 || c.toNat = 0xfeff

-- The punctuation kept by the character whitelist of `cleanText`:
-- the regex is `[^\w\s.,!?;:()\-"']`.
def isKeptPunct (c : Char) : Bool :=
  c = '.' || c = ',' || c = '!' || c = '?' || c = ';' || c = ':' ||
  c = '(' || c = ')' || c = '-' || c = '"' || c = '\x27'

-- A character surviving the third replace of `cleanText`.
def keepChar (c : Char) : Bool :=
  isJsWordChar c || isJsWs c || isKeptPunct c

-- ===== cleanText (newsIngestionService.js lines 639-651) =====

-- `.replace(/<[^>]*>/g, '')`: from each `<`, the regex consumes everything
-- up to and including the first following `>`; a `<` with no later `>` is
-- left in place.  Fuel-based so that the kernel can evaluate it; the fuel
-- `l.length` always suffices since every step consumes at least one char.
def stripTagsGo : Nat → List Char → List Char
  | 0, l => l
  | _ + 1, [] => []
  | fuel + 1, c :: rest =>
    if c = '<' then
      match rest.dropWhile (fun d => !(d = '>')) with
      | [] => c :: stripTagsGo fuel rest
      | _ :: tl => stripTagsGo fuel tl
    else c :: stripTagsGo fuel rest

def stripTags (l : List Char) : List Char := stripTagsGo l.length l

-- `.replace(/\s+/g, ' ')`: every maximal run of whitespace becomes one
-- single space.  The flag records whether the previous char was whitespace.
def collapseWsGo : Bool → List Char → List Char
  | _, [] => []
  | prevWs, c :: rest =>
    if isJsWs c then
      if prevWs then collapseWsGo true rest
      else ' ' :: collapseWsGo true rest
    else c :: collapseWsGo false rest

def collapseWs (l : List Char) : List Char := collapseWsGo false l

-- `.trim()`: strip leading and trailing whitespace.
def dropTrailing (p : Char → Bool) (l : List Char) : List Char :=
  (l.reverse.dropWhile p).reverse

def jsTrim (l : List Char) : List Char :=
  dropTrailing isJsWs (l.dropWhile isJsWs)

-- `cleanText(text)`: strip HTML tags, collapse whitespace, remove all
-- characters outside `\w`, `\s` and the kept punctuation, then trim.
-- (The JS `if (!text) return ''` guard is the identity here: the pipeline
-- maps the empty string to itself.)
def cleanText (s : String) : String :=
  ⟨jsTrim ((collapseWs (stripTags s.data)).filter keepChar)⟩

-- ===== Ingestion data model (newsIngestionService.js) =====

-- One RSS feed item as delivered by the rss-parser collaborator.  Absent
-- fields are `none`; JS code only probes these fields through `||` chains.
structure FeedItem where
  title : Option String
  link : Option String
  guid : Option String
  contentSnippet : Option String
  content : Option String
  description : Option String
  pubDate : Option String
  isoDate : Option String
deriving DecidableEq

-- One configured RSS source record.
structure Source where
  name : String
  url : String
  category : String
  region : Option String
deriving DecidableEq

-- The stored article record.  The presentation-layer enrichment fields of
-- the source (`author`, `tags`, `summary`, `language`, `mediaUrl`) are
-- omitted: the specification (design notes) classifies them as optional
-- out-of-core metadata with no bearing on the verified properties, and no
-- claim mentions them.
structure Article where
  id : String
  title : String
  content : String
  url : String
  publishedAt : String
  source : String
  category : String
  region : String
  wordCount : Nat
deriving DecidableEq

-- Environment of external collaborators consumed during ingestion:
-- `scrape url` is `scrapeFullArticle` (page fetch + cheerio extraction;
-- `none` both for a thrown error and for the explicit `null` returns),
-- `feeds url` is `rssParser.parseURL(url).items` (`none` for a parse
-- failure), and `now` is `new Date().toISOString()`.
structure IngestEnv where
  scrape : String → Option String
  feeds : String → Option (List FeedItem)
  now : String

-- Primary content extraction plus the conditional secondary full-article
-- fetch of `processRSSItem` (lines 490-502): feed fields first; when the
-- raw content is shorter than 200 chars and the item has a link, the
-- scraped full text replaces it if truthy and strictly longer.
def resolveContent (env : IngestEnv) (item : FeedItem) : String :=
  let c0 := jsOrD (jsOr item.contentSnippet (jsOr item.content item.description)) ""
  if c0.length < 200 && truthyOpt item.link then
    match env.scrape (item.link.getD "") with
    | some fc => if fc ≠ "" && c0.length < fc.length then fc else c0
    | none => c0
  else c0

-- The length clamp of `processRSSItem` (lines 512-515): content longer than
-- 6000 chars is cut to its first 6000 chars plus the marker `...`.
def clampContent (s : String) : String :=
  if s.length > 6000 then (⟨s.data.take 6000⟩ : String) ++ "..." else s

-- `processRSSItem(item, source)` (lines 482-537).  `md5` is the crypto
-- collaborator (`crypto.createHash('md5').update(k).digest('hex')`).  The
-- article id hashes `item.link || item.guid || item.title`; when that chain
-- is undefined the `update` call throws and the catch returns null, and an
-- item whose cleaned content stays under 100 chars is likewise rejected.
def processRSSItem (md5 : String → String) (env : IngestEnv) (item : FeedItem)
    (src : Source) : Option Article :=
  match jsOr item.link (jsOr item.guid item.title) with
  | none => none
  | some key =>
    let content := cleanText (resolveContent env item)
    if content.length < 100 then none
    else some {
      id := md5 key
      title := cleanText (jsOrD item.title "Untitled")
      content := clampContent content
      url := jsOrD item.link ""
      publishedAt := jsOrD item.pubDate (jsOrD item.isoDate env.now)
      source := src.name
      category := src.category
      region := jsOrD src.region "Unknown"
      wordCount := ((clampContent content).splitOn " ").length
    }

-- `ingestFromRSS(source)` (lines 456-480): parse the feed, keep the first
-- 15 items, process each item and drop the rejected ones; a feed-level
-- parse failure yields an empty list (the catch returns []).
def ingestFromRSS (md5 : String → String) (env : IngestEnv) (src : Source) :
    List Article :=
  match env.feeds src.url with
  | none => []
  | some items => (items.take 15).filterMap (fun it => processRSSItem md5 env it src)

-- The batch handed to `storeBatchDocuments` by `ingestAllSources`
-- (lines 413-454): per-source articles concatenated, with no intra-batch
-- deduplication.
def ingestAllSourcesBatch (md5 : String → String) (env : IngestEnv)
    (sources : List Source) : List Article :=
  sources.flatMap (fun src => ingestFromRSS md5 env src)

-- The normalized-title key of `ingestWithDeduplication` (line 715):
-- `article.title.toLowerCase().replace(/[^\w\s]/g, '')`.
def titleKey (a : Article) : String :=
  ⟨(a.title.data.map Char.toLower).filter (fun c => isJsWordChar c || isJsWs c)⟩

-- The dedup filter of `ingestWithDeduplication` (lines 714-725): items are
-- scanned left to right; an item whose URL key or normalized-title key was
-- already seen is dropped, an accepted item adds both its keys.
def dedupFilter (seenUrls seenTitles : List String) :
    List Article → List Article × List String × List String
  | [] => ([], seenUrls, seenTitles)
  | a :: rest =>
    if a.url ∈ seenUrls ∨ titleKey a ∈ seenTitles then
      dedupFilter seenUrls seenTitles rest
    else
      let r := dedupFilter (a.url :: seenUrls) (titleKey a :: seenTitles) rest
      (a :: r.1, r.2)

-- The batch handed to `storeBatchDocuments` by `ingestWithDeduplication`
-- (lines 701-743): the seen-URL and seen-title sets persist across sources
-- for the whole run.
def ingestWithDedupBatch (md5 : String → String) (env : IngestEnv)
    (sources : List Source) : List Article :=
  (sources.foldl
    (fun acc src =>
      let r := dedupFilter acc.2.1 acc.2.2 (ingestFromRSS md5 env src)
      (acc.1 ++ r.1, r.2))
    (([] : List Article), ([] : List String), ([] : List String))).1

-- Two articles collide for the dedup invariant when they share neither key.
def distinctKeys (a b : Article) : Prop :=
  titleKey a ≠ titleKey b ∧ a.url ≠ b.url

-- ===== RAG query pipeline data model (rag.js) =====

-- One conversation turn as read from the Redis chat history.
structure Turn where
  role : String
  content : String
deriving DecidableEq

-- The payload stored with each vector-store point.
structure Payload where
  title : String
  content : String
  url : String
  publishedAt : String
  source : String
  createdAt : String
deriving DecidableEq

-- One raw Qdrant search result.
structure SearchHit where
  id : String
  score : ℚ
  payload : Payload
deriving DecidableEq

-- One retrieved candidate as shaped by `searchSimilarDocuments`
-- (`{ id, score, ...payload }`).
structure Doc where
  id : String
  score : ℚ
  title : String
  content : String
  url : String
  publishedAt : String
  source : String
  createdAt : String
deriving DecidableEq

-- One source reference attached to a generated response.
structure SourceRef where
  title : String
  url : String
  source : String
  publishedAt : String
deriving DecidableEq

-- The value returned by `processQuery`.
structure QueryResult where
  response : String
  sources : List SourceRef
  queryHash : String
  relevantDocsCount : Nat
deriving DecidableEq

-- The value returned by `generateResponse` on success.
structure GenOut where
  response : String
  sources : List SourceRef
deriving DecidableEq

-- Number of invocations of each external provider during one query.
structure Calls where
  embed : Nat
  search : Nat
  gen : Nat
deriving DecidableEq

-- External collaborators of the query pipeline: `md5` and
-- `stringifyTurns` model `crypto`/`JSON.stringify` used for the cache
-- fingerprint, `embed` the Jina embedding call (`none` for a thrown
-- error), `qdrantSearch vector limit scoreThreshold` the Qdrant search,
-- and `generate prompt` the Gemini completion (`none` both for a thrown
-- error and for a malformed response, which the code turns into a throw).
-- `isQdrantAvailable` is the flag set once by `initialize`.
structure RagEnv where
  isQdrantAvailable : Bool
  md5 : String → String
  stringifyTurns : List Turn → String
  embed : String → Option (List ℚ)
  qdrantSearch : List ℚ → Nat → ℚ → List SearchHit
  generate : String → Option String

-- The cache fingerprint computed identically by `processQuery` and by the
-- socket message handler:
-- `md5(query + JSON.stringify(chatHistory.slice(-3)))`.
def queryFingerprint (env : RagEnv) (query : String) (hist : List Turn) : String :=
  env.md5 (query ++ env.stringifyTurns (jsSliceLast 3 hist))

-- `{ id: result.id, score: result.score, ...result.payload }`.
def toDoc (h : SearchHit) : Doc :=
  { id := h.id, score := h.score, title := h.payload.title,
    content := h.payload.content, url := h.payload.url,
    publishedAt := h.payload.publishedAt, source := h.payload.source,
    createdAt := h.payload.createdAt }

-- `searchSimilarDocuments(query, limit)` (rag.js lines 219-248): an empty
-- list without touching the providers when Qdrant is unavailable; an empty
-- list when embedding throws (the catch); otherwise the Qdrant search with
-- `score_threshold: 0.7`, reshaped.
def searchSimilarDocuments (env : RagEnv) (query : String) (limit : Nat) :
    List Doc × Calls :=
  if !env.isQdrantAvailable then ([], ⟨0, 0, 0⟩)
  else
    match env.embed query with
    | none => ([], ⟨1, 0, 0⟩)
    | some vec => ((env.qdrantSearch vec limit (7/10)).map toDoc, ⟨1, 1, 0⟩)

-- Context block of `generateResponse` (lines 256-261).
def fmtDoc (d : Doc) : String :=
  "Title: " ++ (d.title ++ ("\nContent: " ++ (d.content ++ ("\nSource: " ++
    (d.source ++ ("\nPublished: " ++ (d.publishedAt ++ "\n---")))))))

def contextText (context : List Doc) : String :=
  if context.length > 0 then String.intercalate "\n" (context.map fmtDoc)
  else "No news articles available in the database."

-- History block of `generateResponse` (lines 263-266): last 5 turns.
def historyText (hist : List Turn) : String :=
  String.intercalate "\n" ((jsSliceLast 5 hist).map (fun m => m.role ++ (": " ++ m.content)))

-- The fixed opening sentence of the prompt used when no context documents
-- survive: it explicitly states that no news data is available.
def noDataPromptIntro : String :=
  "You are a helpful assistant. The news database is currently empty, so you cannot provide news-specific information. Please respond helpfully to the user\x27s question while explaining that news data is not yet available."

def noDataPromptAfter (query : String) (hist : List Turn) : String :=
  "\n\nPrevious conversation:\n" ++ (historyText hist ++
    ("\n\nUser question: " ++ (query ++
      "\n\nInstructions:\n1. Be helpful and conversational\n2. Explain that the news database is currently empty\n3. Suggest that an administrator needs to run news ingestion\n4. Offer to help with general questions\n5. Keep responses friendly and informative\n\nResponse:")))

def withContextPrompt (query : String) (context : List Doc) (hist : List Turn) : String :=
  "You are a helpful news assistant that provides accurate, informative responses based on the latest news articles. Use the provided context to answer the user\x27s question.\n\nContext from recent news articles:\n" ++
    (contextText context ++
      ("\n\nPrevious conversation:\n" ++ (historyText hist ++
        ("\n\nUser question: " ++ (query ++
          "\n\nInstructions:\n1. Provide a comprehensive answer based on the news context provided\n2. If the context doesn\x27t contain relevant information, say so clearly\n3. Always cite your sources when referencing specific information\n4. Be objective and factual\n5. If asked about recent events, focus on the most current information available\n6. Keep responses conversational but informative\n\nResponse:")))))

-- The prompt ternary of `generateResponse` (lines 268-302).
def buildPrompt (query : String) (context : List Doc) (hist : List Turn) : String :=
  if context.length > 0 then withContextPrompt query context hist
  else noDataPromptIntro ++ noDataPromptAfter query hist

-- `generateResponse(query, context, chatHistory)` (lines 250-363): one
-- Gemini call on the built prompt; on success the generated text plus the
-- context documents reshaped as source references; a provider failure (or
-- missing key / malformed reply) is a thrown error.
def generateResponse (env : RagEnv) (query : String) (context : List Doc)
    (hist : List Turn) : Except Unit GenOut :=
  match env.generate (buildPrompt query context hist) with
  | some text =>
    .ok { response := text,
          sources := context.map (fun d =>
            { title := d.title, url := d.url, source := d.source,
              publishedAt := d.publishedAt }) }
  | none => .error ()

-- The fixed advisory response of the degraded (Qdrant-unavailable) mode.
def advisoryText : String :=
  "I\x27m currently unable to access the news database. The RAG service is running in limited mode. Please ensure Qdrant is properly configured and try again later."

-- The default text of the no-candidates path, used when the generated
-- fallback text is falsy (`fallbackResponse.response || "..."`).
def emptyDbDefaultText : String :=
  "I don\x27t have any news articles in my database yet. To get started, an administrator needs to run the news ingestion process. In the meantime, I can help answer general questions!"

-- `processQuery(query, chatHistory)` (rag.js lines 365-408), paired with
-- the number of provider invocations it performs.  A generation failure is
-- re-thrown (`Except.error`); every other path returns a result.
def processQuery (env : RagEnv) (query : String) (hist : List Turn) :
    Except Unit QueryResult × Calls :=
  let queryHash := queryFingerprint env query hist
  if !env.isQdrantAvailable then
    (.ok { response := advisoryText, sources := [], queryHash := queryHash,
           relevantDocsCount := 0 }, ⟨0, 0, 0⟩)
  else
    let sr := searchSimilarDocuments env query 5
    if sr.1.length = 0 then
      match generateResponse env query [] hist with
      | .ok g =>
        (.ok { response := if g.response = "" then emptyDbDefaultText else g.response,
               sources := [], queryHash := queryHash, relevantDocsCount := 0 },
         ⟨sr.2.embed, sr.2.search, sr.2.gen + 1⟩)
      | .error e => (.error e, ⟨sr.2.embed, sr.2.search, sr.2.gen + 1⟩)
    else
      match generateResponse env query sr.1 hist with
      | .ok g =>
        (.ok { response := g.response, sources := g.sources, queryHash := queryHash,
               relevantDocsCount := sr.1.length },
         ⟨sr.2.embed, sr.2.search, sr.2.gen + 1⟩)
      | .error e => (.error e, ⟨sr.2.embed, sr.2.search, sr.2.gen + 1⟩)

-- The search contract of the vector store (spec section 6): results at or
-- above the requested score threshold, at most `limit` of them.
def SearchContract (f : List ℚ → Nat → ℚ → List SearchHit) : Prop :=
  ∀ vec limit thr, (∀ h ∈ f vec limit thr, thr ≤ h.score) ∧ (f vec limit thr).length ≤ limit

-- ===== Query cache and socket message handler (socket/handlers.js) =====

-- The Redis query cache: association list of key, cached result and
-- absolute expiry second (`setEx` stores for `ttl` seconds).
def CacheState : Type := List (String × QueryResult × Nat)

-- `getCachedQueryResult` at time `now`: the most recent entry under the
-- key, provided it has not expired.
def cacheGet (cache : CacheState) (now : Nat) (key : String) : Option QueryResult :=
  match cache.find? (fun e => e.1 = key) with
  | some e => if now < e.2.2 then some e.2.1 else none
  | none => none

-- `cacheQueryResult(key, result, ttl)` at time `now`.
def cacheSet (cache : CacheState) (now : Nat) (key : String) (v : QueryResult)
    (ttl : Nat) : CacheState :=
  (key, v, now + ttl) :: cache

-- What the handler emits as the assistant message: text plus sources.
structure ChatResponse where
  response : String
  sources : List SourceRef
deriving DecidableEq

-- Outcome of one socket `message` event.
structure HandlerOut where
  resp : ChatResponse
  fromCache : Bool
  cache : CacheState
  calls : Calls

-- The fixed apologetic response of the handler when RAG processing throws.
def apologyText : String :=
  "I\x27m sorry, I\x27m having trouble processing your request right now. Please try again in a moment."

-- The cache-and-RAG core of the socket `message` handler (handlers.js
-- lines 99-128): compute the fingerprint, probe the cache, on a miss run
-- `processQuery` and cache a successful result for 30 minutes; when RAG
-- processing throws, fall back to the fixed apology with no sources and
-- leave the cache untouched.
def handleMessage (env : RagEnv) (cache : CacheState) (now : Nat) (msg : String)
    (hist : List Turn) : HandlerOut :=
  let h := queryFingerprint env msg hist
  match cacheGet cache now h with
  | some r => ⟨⟨r.response, r.sources⟩, true, cache, ⟨0, 0, 0⟩⟩
  | none =>
    match processQuery env msg hist with
    | (.ok r, c) => ⟨⟨r.response, r.sources⟩, false, cacheSet cache now h r (30 * 60), c⟩
    | (.error _, c) => ⟨⟨apologyText, []⟩, false, cache, c⟩

-- ===== Concrete instances used by witnesses and counterexamples =====

-- Stand-in for the md5 collaborator in concrete runs: any function of the
-- full input string is a faithful instance of the crypto contract.
def md5W (s : String) : String := "#" ++ s

-- Stand-in for `JSON.stringify` on a turn list.
def stringifyTurnsW (l : List Turn) : String :=
  String.intercalate ";" (l.map (fun t => t.role ++ (":" ++ t.content)))

-- Degraded-mode environment: the vector store was unreachable at startup.
def envW : RagEnv :=
  ⟨false, md5W, stringifyTurnsW, fun _ => none, fun _ _ _ => [], fun _ => none⟩

def payloadW : Payload :=
  ⟨"T1", "C1", "http://u", "2024-01-01", "Src", "2024-01-02"⟩

def hitW : SearchHit := ⟨"id1", 4/5, payloadW⟩

-- A vector-store instance honoring the search contract: one stored point
-- of score 4/5, returned when it clears the requested threshold and limit.
def honestSearch : List ℚ → Nat → ℚ → List SearchHit :=
  fun _ limit thr => (if thr ≤ 4/5 then [hitW] else []).take limit

-- Healthy environment whose search yields one candidate.
def envSearch : RagEnv :=
  ⟨true, md5W, stringifyTurnsW, fun _ => some [1], honestSearch, fun _ => some "Answer."⟩

-- Healthy retrieval, failing generation provider.
def envGenFail : RagEnv :=
  ⟨true, md5W, stringifyTurnsW, fun _ => some [1], fun _ _ _ => [hitW], fun _ => none⟩

-- Healthy environment in which the similarity search yields no candidate.
def envNoDocs : RagEnv :=
  ⟨true, md5W, stringifyTurnsW, fun _ => some [1], fun _ _ _ => [], fun _ => some "General answer."⟩

-- The degraded-mode result for the query "hello" with empty history.
def advisoryResultW : QueryResult :=
  ⟨advisoryText, [], queryFingerprint envW "hello" [], 0⟩

-- Ingestion environment with no reachable feeds or article pages.
def envI : IngestEnv :=
  ⟨fun _ => none, fun _ => none, "2024-01-01T00:00:00.000Z"⟩

def content120 : String := ⟨List.replicate 120 'b'⟩

def content150 : String := ⟨List.replicate 150 'c'⟩

def srcW : Source := ⟨"BBC News", "http://feeds/bbc", "world", some "UK"⟩

def itemW : FeedItem :=
  ⟨some "Title One", some "http://a/1", none, some content120, none, none, none, none⟩

-- Same natural keys as `itemW`, different feed content.
def itemW2 : FeedItem :=
  ⟨some "Title One", some "http://a/1", none, some content150, none, none, none, none⟩

-- Two items from two different feeds reporting the same story under the
-- same title (and, having no links, the same empty URL).
def itemDupA : FeedItem :=
  ⟨some "Same Event Reported", none, some "guid-a", some content120, none, none, none, none⟩

def itemDupB : FeedItem :=
  ⟨some "Same Event Reported", none, some "guid-b", some content150, none, none, none, none⟩

def srcA : Source := ⟨"SrcA", "http://feeds/a", "world", none⟩

def srcB : Source := ⟨"SrcB", "http://feeds/b", "world", none⟩

def envDup : IngestEnv :=
  ⟨fun _ => none,
   fun u => if u = "http://feeds/a" then some [itemDupA]
            else if u = "http://feeds/b" then some [itemDupB]
            else none,
   "2024-01-01T00:00:00.000Z"⟩

-- ===== Helper lemmas =====

theorem searchSimilar_gen_eq_zero (env : RagEnv) (q : String) (lim : Nat) :
    (searchSimilarDocuments env q lim).2.gen = 0 := by
  unfold searchSimilarDocuments
  by_cases ha : env.isQdrantAvailable
  · simp only [ha, Bool.not_true, Bool.false_eq_true, if_false]
    cases env.embed q <;> rfl
  · simp [ha]

-- ===== C2: degraded-mode short circuit =====

/-- C2: when the vector store was marked unavailable at startup, every query
returns the fixed advisory text with an empty sources array and a
relevant-document count of 0, and neither the embedding provider nor the
vector-store search (nor generation) is invoked. -/
theorem degraded_mode_short_circuit (env : RagEnv) (q : String) (hist : List Turn)
    (h : env.isQdrantAvailable = false) :
    processQuery env q hist =
      (.ok ⟨advisoryText, [], queryFingerprint env q hist, 0⟩, ⟨0, 0, 0⟩) := by
  unfold processQuery
  simp [h]

/-- Witness: the concrete degraded environment `envW` on the query "hello". -/
theorem degraded_mode_short_circuit_witness :
    envW.isQdrantAvailable = false ∧
    processQuery envW "hello" [] =
      (.ok ⟨advisoryText, [], queryFingerprint envW "hello" [], 0⟩, ⟨0, 0, 0⟩) :=
  ⟨rfl, degraded_mode_short_circuit envW "hello" [] rfl⟩

-- ===== C10: shape invariant of every returned query result =====

/-- C10: every result returned (not thrown) by `processQuery` has as many
source references as its `relevantDocsCount` field, and always carries the
computed query fingerprint as `queryHash`. -/
theorem processQuery_result_invariant (env : RagEnv) (q : String) (hist : List Turn)
    (r : QueryResult) (c : Calls)
    (h : processQuery env q hist = (.ok r, c)) :
    r.sources.length = r.relevantDocsCount ∧
    r.queryHash = queryFingerprint env q hist := by
  unfold processQuery at h
  by_cases ha : env.isQdrantAvailable
  · simp only [ha, Bool.not_true, Bool.false_eq_true, if_false] at h
    split at h
    · -- no-candidates path
      split at h
      next g hg =>
        unfold generateResponse at hg
        cases h
        simp
      next e hg => cases h
    · -- candidates path
      split at h
      next g hg =>
        unfold generateResponse at hg
        split at hg
        next text hgen =>
          cases hg
          cases h
          simp [List.length_map]
        next hgen => cases hg
      next e hg => cases h
  · simp only [ha, Bool.not_false] at h
    cases h
    simp

/-- Witness: the degraded environment instantiates the invariant. -/
theorem processQuery_result_invariant_witness :
    processQuery envW "hello" [] = (.ok advisoryResultW, ⟨0, 0, 0⟩) ∧
    (advisoryResultW.sources.length = advisoryResultW.relevantDocsCount ∧
     advisoryResultW.queryHash = queryFingerprint envW "hello" []) :=
  ⟨by rfl, processQuery_result_invariant envW "hello" [] advisoryResultW ⟨0, 0, 0⟩ (by rfl)⟩

-- ===== C3: hard relevance gate of the similarity search =====

/-- C3: assuming the vector store honors its search contract (results at or
above the requested threshold, at most `limit` of them), every candidate
returned by `searchSimilarDocuments` has similarity score at least 0.7 (the
hard-coded `score_threshold`) and at most `limit` candidates are returned
(`processQuery` requests `limit = 5`). -/
theorem relevance_gate (env : RagEnv) (q : String) (limit : Nat)
    (hc : SearchContract env.qdrantSearch) :
    (searchSimilarDocuments env q limit).1.all
        (fun d => decide ((7 : ℚ)/10 ≤ d.score)) = true ∧
    (searchSimilarDocuments env q limit).1.length ≤ limit := by
  unfold searchSimilarDocuments
  by_cases ha : env.isQdrantAvailable
  · simp only [ha, Bool.not_true, Bool.false_eq_true, if_false]
    cases he : env.embed q with
    | none => simp
    | some vec =>
      simp only []
      constructor
      · rw [List.all_eq_true]
        intro d hd
        rw [List.mem_map] at hd
        obtain ⟨hit, hhit, rfl⟩ := hd
        exact decide_eq_true ((hc vec limit (7/10)).1 hit hhit)
      · rw [List.length_map]
        exact (hc vec limit (7/10)).2
  · simp [ha]

theorem honestSearch_contract : SearchContract honestSearch := by
  intro vec limit thr
  constructor
  · intro h hh
    have hm : h ∈ (if thr ≤ 4/5 then [hitW] else ([] : List SearchHit)) :=
      List.mem_of_mem_take hh
    by_cases ht : thr ≤ (4 : ℚ)/5
    · rw [if_pos ht] at hm
      rw [List.mem_singleton] at hm
      subst hm
      exact ht
    · rw [if_neg ht] at hm
      cases hm
  · exact List.length_take_le _ _

/-- Witness: a one-point vector store honoring the contract, searched by the
healthy environment `envSearch`. -/
theorem relevance_gate_witness :
    SearchContract envSearch.qdrantSearch ∧
    ((searchSimilarDocuments envSearch "q" 5).1.all
        (fun d => decide ((7 : ℚ)/10 ≤ d.score)) = true ∧
     (searchSimilarDocuments envSearch "q" 5).1.length ≤ 5) :=
  ⟨honestSearch_contract, relevance_gate envSearch "q" 5 honestSearch_contract⟩

-- ===== C7: no-candidates path still generates, with empty context =====

/-- C7: when the similarity search yields zero candidates (and generation
succeeds with text `t`), `processQuery` still invokes the generation
provider exactly once, on the empty-context prompt — whose fixed opening
sentence explicitly states that the news database holds no data — and
returns a result with an empty sources array and a relevant-document count
of 0 (falling back to the fixed no-articles text when `t` is falsy). -/
theorem no_candidates_still_generates (env : RagEnv) (q : String) (hist : List Turn)
    (t : String)
    (ha : env.isQdrantAvailable = true)
    (hs : (searchSimilarDocuments env q 5).1 = [])
    (hg : env.generate (buildPrompt q [] hist) = some t) :
    processQuery env q hist =
      (.ok ⟨(if t = "" then emptyDbDefaultText else t), [],
            queryFingerprint env q hist, 0⟩,
       ⟨(searchSimilarDocuments env q 5).2.embed,
        (searchSimilarDocuments env q 5).2.search, 1⟩) ∧
    buildPrompt q [] hist = noDataPromptIntro ++ noDataPromptAfter q hist := by
  constructor
  · unfold processQuery
    unfold generateResponse
    simp [ha, hs, hg, searchSimilar_gen_eq_zero]
  · unfold buildPrompt
    simp

/-- Witness: the healthy-but-empty-search environment `envNoDocs`. -/
theorem no_candidates_still_generates_witness :
    envNoDocs.isQdrantAvailable = true ∧
    (searchSimilarDocuments envNoDocs "q" 5).1 = [] ∧
    envNoDocs.generate (buildPrompt "q" [] []) = some "General answer." ∧
    (processQuery envNoDocs "q" [] =
      (.ok ⟨(if "General answer." = "" then emptyDbDefaultText else "General answer."), [],
            queryFingerprint envNoDocs "q" [], 0⟩,
       ⟨(searchSimilarDocuments envNoDocs "q" 5).2.embed,
        (searchSimilarDocuments envNoDocs "q" 5).2.search, 1⟩) ∧
     buildPrompt "q" [] [] = noDataPromptIntro ++ noDataPromptAfter "q" []) :=
  ⟨rfl, rfl, rfl, no_candidates_still_generates envNoDocs "q" [] "General answer." rfl rfl rfl⟩

-- ===== C1: identical query + history within TTL hits the cache =====

theorem processQuery_gen_le_one (env : RagEnv) (q : String) (hist : List Turn) :
    (processQuery env q hist).2.gen ≤ 1 := by
  unfold processQuery
  by_cases ha : env.isQdrantAvailable
  · have h0 := searchSimilar_gen_eq_zero env q 5
    simp only [ha, Bool.not_true, Bool.false_eq_true, if_false]
    split
    · split <;> simp [h0]
    · split <;> simp [h0]
  · simp [ha]

theorem cacheGet_cacheSet_same (cache : CacheState) (now later : Nat) (k : String)
    (v : QueryResult) (ttl : Nat) (h : later < now + ttl) :
    cacheGet (cacheSet cache now k v ttl) later k = some v := by
  unfold cacheGet cacheSet
  simp [List.find?, h]

/-- C1: two queries with identical text and identical history, the second
issued within the 30-minute TTL of the first, key the cache at the same
fingerprint `md5(query + JSON.stringify(history.slice(-3)))`; when the
fingerprint is fresh and RAG processing succeeds, the second invocation is
answered from the cache with exactly the first response (text and sources
unchanged), performs no provider calls at all, and the generation provider
runs at most once across the two invocations. -/
theorem query_cache_hit_single_generation (env : RagEnv) (cache : CacheState)
    (t1 t2 : Nat) (msg : String) (hist : List Turn)
    (hmiss : cacheGet cache t1 (queryFingerprint env msg hist) = none)
    (ht : t2 < t1 + 30 * 60)
    (hok : (processQuery env msg hist).1.isOk = true) :
    (handleMessage env (handleMessage env cache t1 msg hist).cache t2 msg hist).fromCache = true ∧
    (handleMessage env (handleMessage env cache t1 msg hist).cache t2 msg hist).resp =
      (handleMessage env cache t1 msg hist).resp ∧
    (handleMessage env (handleMessage env cache t1 msg hist).cache t2 msg hist).calls = ⟨0, 0, 0⟩ ∧
    (handleMessage env cache t1 msg hist).calls.gen +
      (handleMessage env (handleMessage env cache t1 msg hist).cache t2 msg hist).calls.gen ≤ 1 := by
  cases hq : processQuery env msg hist with
  | mk res cal =>
    cases res with
    | error e => rw [hq] at hok; simp [Except.isOk, Except.toBool] at hok
    | ok r =>
      have h1 : handleMessage env cache t1 msg hist =
          ⟨⟨r.response, r.sources⟩, false,
           cacheSet cache t1 (queryFingerprint env msg hist) r (30 * 60), cal⟩ := by
        simp [handleMessage, hmiss, hq]
      have h2 : handleMessage env
          (cacheSet cache t1 (queryFingerprint env msg hist) r (30 * 60)) t2 msg hist =
          ⟨⟨r.response, r.sources⟩, true,
           cacheSet cache t1 (queryFingerprint env msg hist) r (30 * 60), ⟨0, 0, 0⟩⟩ := by
        simp [handleMessage,
          cacheGet_cacheSet_same cache t1 t2 (queryFingerprint env msg hist) r (30 * 60) ht]
      have hgen : cal.gen ≤ 1 := by
        have := processQuery_gen_le_one env msg hist
        rw [hq] at this
        exact this
      rw [h1, h2]
      exact ⟨rfl, rfl, rfl, by simpa using hgen⟩

/-- Witness: the degraded environment `envW`, empty cache, times 0 and 1. -/
theorem query_cache_hit_single_generation_witness :
    cacheGet [] 0 (queryFingerprint envW "hi" []) = none ∧
    1 < 0 + 30 * 60 ∧
    (processQuery envW "hi" []).1.isOk = true ∧
    ((handleMessage envW (handleMessage envW [] 0 "hi" []).cache 1 "hi" []).fromCache = true ∧
     (handleMessage envW (handleMessage envW [] 0 "hi" []).cache 1 "hi" []).resp =
       (handleMessage envW [] 0 "hi" []).resp ∧
     (handleMessage envW (handleMessage envW [] 0 "hi" []).cache 1 "hi" []).calls = ⟨0, 0, 0⟩ ∧
     (handleMessage envW [] 0 "hi" []).calls.gen +
       (handleMessage envW (handleMessage envW [] 0 "hi" []).cache 1 "hi" []).calls.gen ≤ 1) :=
  ⟨rfl, by decide,  by rfl,
   query_cache_hit_single_generation envW [] 0 1 "hi" [] rfl (by decide) (by rfl)⟩

-- ===== C8: generation failure falls back to the fixed apology =====

/-- C8 (amended): when RAG processing throws (in particular when the
generation provider fails), the socket handler answers with the fixed
apologetic response carrying an EMPTY sources array — candidates retrieved
for the query are discarded, not attached — leaves the cache untouched, and
the error does not propagate (the handler returns a normal outcome). -/
theorem generation_failure_apology (env : RagEnv) (cache : CacheState) (now : Nat)
    (msg : String) (hist : List Turn)
    (hmiss : cacheGet cache now (queryFingerprint env msg hist) = none)
    (herr : (processQuery env msg hist).1 = .error ()) :
    handleMessage env cache now msg hist =
      ⟨⟨apologyText, []⟩, false, cache, (processQuery env msg hist).2⟩ := by
  cases hq : processQuery env msg hist with
  | mk res cal =>
    rw [hq] at herr
    simp only at herr
    simp [handleMessage, hmiss, hq, herr]

/-- Counterexample to C8 as stated: in `envGenFail` the similarity search
retrieves one candidate, generation fails, and the handler responds with
the apology whose sources array is empty — the retrieved candidate is NOT
attached as sources metadata. -/
theorem generation_failure_sources_cex :
    (searchSimilarDocuments envGenFail "q" 5).1.length = 1 ∧
    (handleMessage envGenFail [] 0 "q" []).resp.response = apologyText ∧
    (handleMessage envGenFail [] 0 "q" []).resp.sources = [] :=
  ⟨rfl, rfl, rfl⟩

/-- Witness: the failing-generation environment `envGenFail`. -/
theorem generation_failure_apology_witness :
    cacheGet [] 0 (queryFingerprint envGenFail "q" []) = none ∧
    (processQuery envGenFail "q" []).1 = .error () ∧
    handleMessage envGenFail [] 0 "q" [] =
      ⟨⟨apologyText, []⟩, false, [], (processQuery envGenFail "q" []).2⟩ :=
  ⟨rfl, rfl, generation_failure_apology envGenFail [] 0 "q" [] rfl rfl⟩

-- ===== C4: the article id is a pure function of the first truthy key =====

/-- C4: the derived article id depends only on the first truthy key of the
chain `item.link || item.guid || item.title` fed to the md5 collaborator:
two processed items agreeing on link, guid and title receive the identical
id regardless of content, environment or source, so re-ingesting an
unchanged item yields the same id (and hence an upsert of the same point,
not a duplicate). -/
theorem article_id_pure_function (md5 : String → String) (env env2 : IngestEnv)
    (i i2 : FeedItem) (s s2 : Source)
    (hl : i.link = i2.link) (hg : i.guid = i2.guid) (htt : i.title = i2.title)
    (h1 : (processRSSItem md5 env i s).isSome = true)
    (h2 : (processRSSItem md5 env2 i2 s2).isSome = true) :
    (processRSSItem md5 env i s).map Article.id =
      (processRSSItem md5 env2 i2 s2).map Article.id ∧
    (processRSSItem md5 env i s).map Article.id =
      (jsOr i.link (jsOr i.guid i.title)).map md5 := by
  have hkey2 : jsOr i2.link (jsOr i2.guid i2.title) = jsOr i.link (jsOr i.guid i.title) := by
    rw [hl, hg, htt]
  unfold processRSSItem at h1 h2 ⊢
  rw [hkey2] at h2 ⊢
  cases hk : jsOr i.link (jsOr i.guid i.title) with
  | none => rw [hk] at h1; simp at h1
  | some key =>
    rw [hk] at h1 h2
    by_cases hc1 : (cleanText (resolveContent env i)).length < 100
    · simp [hc1] at h1
    · by_cases hc2 : (cleanText (resolveContent env2 i2)).length < 100
      · simp [hc2] at h2
      · simp [hc1, hc2]

/-- Witness: `itemW` and `itemW2` share link/guid/title but carry different
feed content; both are accepted and get the same id. -/
theorem article_id_pure_function_witness :
    itemW.link = itemW2.link ∧ itemW.guid = itemW2.guid ∧ itemW.title = itemW2.title ∧
    (processRSSItem md5W envI itemW srcW).isSome = true ∧
    (processRSSItem md5W envI itemW2 srcW).isSome = true ∧
    ((processRSSItem md5W envI itemW srcW).map Article.id =
       (processRSSItem md5W envI itemW2 srcW).map Article.id ∧
     (processRSSItem md5W envI itemW srcW).map Article.id =
       (jsOr itemW.link (jsOr itemW.guid itemW.title)).map md5W) :=
  ⟨rfl, rfl, rfl, by decide, by decide,
   article_id_pure_function md5W envI envI itemW itemW2 srcW srcW rfl rfl rfl
     (by decide) (by decide)⟩

-- ===== C6: content length clamp at 6000 chars plus marker =====

/-- C6: the content stored in an accepted article record is exactly the
clamp of its cleaned content: cleaned content longer than 6000 chars is cut
to its first 6000 chars followed by the marker `...` (total length 6003),
and content of at most 6000 chars is stored unmodified. -/
theorem content_clamped (md5 : String → String) (env : IngestEnv) (item : FeedItem)
    (src : Source)
    (h : (processRSSItem md5 env item src).isSome = true) :
    (processRSSItem md5 env item src).map Article.content =
      some (clampContent (cleanText (resolveContent env item))) ∧
    (∀ s : String, 6000 < s.length →
      clampContent s = (⟨s.data.take 6000⟩ : String) ++ "..." ∧
      (clampContent s).length = 6003) ∧
    (∀ s : String, s.length ≤ 6000 → clampContent s = s) := by
  refine ⟨?_, ?_, ?_⟩
  · unfold processRSSItem at h ⊢
    cases hk : jsOr item.link (jsOr item.guid item.title) with
    | none => rw [hk] at h; simp at h
    | some key =>
      rw [hk] at h
      by_cases hc : (cleanText (resolveContent env item)).length < 100
      · simp [hc] at h
      · simp [hc]
  · intro s hs
    refine ⟨by unfold clampContent; rw [if_pos hs], ?_⟩
    unfold clampContent
    rw [if_pos hs]
    have hs2 : 6000 < s.data.length := hs
    simp only [String.length_append]
    show (s.data.take 6000).length + 3 = 6003
    rw [List.length_take]
    omega
  · intro s hs
    unfold clampContent
    rw [if_neg (by omega)]

/-- Witness: `itemW` is accepted with 120 chars of cleaned content, stored
unmodified by the clamp. -/
theorem content_clamped_witness :
    (processRSSItem md5W envI itemW srcW).isSome = true ∧
    (processRSSItem md5W envI itemW srcW).map Article.content =
      some (clampContent (cleanText (resolveContent envI itemW))) :=
  ⟨by decide, (content_clamped md5W envI itemW srcW (by decide)).1⟩

-- ===== C5: intra-batch deduplication =====

theorem dedupFilter_mono_url (l : List Article) :
    ∀ (su st : List String) (x : String), x ∈ su → x ∈ (dedupFilter su st l).2.1 := by
  induction l with
  | nil => intro su st x hx; exact hx
  | cons a rest ih =>
    intro su st x hx
    by_cases h : a.url ∈ su ∨ titleKey a ∈ st
    · simpa only [dedupFilter, if_pos h] using ih su st x hx
    · simp only [dedupFilter, if_neg h]
      exact ih _ _ x (List.mem_cons_of_mem _ hx)

theorem dedupFilter_mono_title (l : List Article) :
    ∀ (su st : List String) (x : String), x ∈ st → x ∈ (dedupFilter su st l).2.2 := by
  induction l with
  | nil => intro su st x hx; exact hx
  | cons a rest ih =>
    intro su st x hx
    by_cases h : a.url ∈ su ∨ titleKey a ∈ st
    · simpa only [dedupFilter, if_pos h] using ih su st x hx
    · simp only [dedupFilter, if_neg h]
      exact ih _ _ x (List.mem_cons_of_mem _ hx)

theorem dedupFilter_kept_mem (l : List Article) :
    ∀ (su st : List String) (a : Article), a ∈ (dedupFilter su st l).1 →
      a.url ∈ (dedupFilter su st l).2.1 ∧ titleKey a ∈ (dedupFilter su st l).2.2 := by
  induction l with
  | nil => intro su st a ha; cases ha
  | cons b rest ih =>
    intro su st a ha
    by_cases h : b.url ∈ su ∨ titleKey b ∈ st
    · simp only [dedupFilter, if_pos h] at ha ⊢
      exact ih su st a ha
    · simp only [dedupFilter, if_neg h] at ha ⊢
      rcases List.mem_cons.mp ha with rfl | ha
      · exact ⟨dedupFilter_mono_url rest _ _ _ (List.mem_cons_self _ _),
               dedupFilter_mono_title rest _ _ _ (List.mem_cons_self _ _)⟩
      · exact ih _ _ a ha

theorem dedupFilter_kept_fresh (l : List Article) :
    ∀ (su st : List String) (a : Article), a ∈ (dedupFilter su st l).1 →
      a.url ∉ su ∧ titleKey a ∉ st := by
  induction l with
  | nil => intro su st a ha; cases ha
  | cons b rest ih =>
    intro su st a ha
    by_cases h : b.url ∈ su ∨ titleKey b ∈ st
    · simp only [dedupFilter, if_pos h] at ha
      exact ih su st a ha
    · simp only [dedupFilter, if_neg h] at ha
      rcases List.mem_cons.mp ha with rfl | ha
      · exact ⟨fun hc => h (Or.inl hc), fun hc => h (Or.inr hc)⟩
      · have := ih _ _ a ha
        exact ⟨fun hc => this.1 (List.mem_cons_of_mem _ hc),
               fun hc => this.2 (List.mem_cons_of_mem _ hc)⟩

theorem dedupFilter_pairwise (l : List Article) :
    ∀ (su st : List String), ((dedupFilter su st l).1).Pairwise distinctKeys := by
  induction l with
  | nil => intro su st; exact List.Pairwise.nil
  | cons b rest ih =>
    intro su st
    by_cases h : b.url ∈ su ∨ titleKey b ∈ st
    · simpa only [dedupFilter, if_pos h] using ih su st
    · simp only [dedupFilter, if_neg h]
      rw [List.pairwise_cons]
      refine ⟨?_, ih _ _⟩
      intro a ha
      have hf := dedupFilter_kept_fresh rest _ _ a ha
      constructor
      · intro hEq
        exact hf.2 (by rw [← hEq]; exact List.mem_cons_self _ _)
      · intro hEq
        exact hf.1 (by rw [← hEq]; exact List.mem_cons_self _ _)

/-- C5 (amended): a run through `ingestWithDeduplication` accepts no two
articles sharing a normalized-title key or a URL key — any item matching
either key of an already-accepted item of the same run is dropped.  (A run
through `ingestAllSources` applies no such filter; see the
counterexample.) -/
theorem ingestWithDedup_no_key_collision (md5 : String → String) (env : IngestEnv)
    (sources : List Source) :
    (ingestWithDedupBatch md5 env sources).Pairwise distinctKeys := by
  unfold ingestWithDedupBatch
  suffices h : ∀ (srcs : List Source) (acc : List Article) (su st : List String),
      acc.Pairwise distinctKeys →
      (∀ a ∈ acc, a.url ∈ su ∧ titleKey a ∈ st) →
      ((srcs.foldl
          (fun acc2 src =>
            let r := dedupFilter acc2.2.1 acc2.2.2 (ingestFromRSS md5 env src)
            (acc2.1 ++ r.1, r.2))
          (acc, su, st)).1).Pairwise distinctKeys by
    exact h sources [] [] [] List.Pairwise.nil (by intro a ha; cases ha)
  intro srcs
  induction srcs with
  | nil => intro acc su st hp _; simpa using hp
  | cons src rest ih =>
    intro acc su st hp hseen
    simp only [List.foldl_cons]
    apply ih
    · rw [List.pairwise_append]
      refine ⟨hp, dedupFilter_pairwise _ _ _, ?_⟩
      intro a ha b hb
      have hfa := hseen a ha
      have hfb := dedupFilter_kept_fresh _ _ _ b hb
      constructor
      · intro hEq
        exact hfb.2 (hEq ▸ hfa.2)
      · intro hEq
        exact hfb.1 (hEq ▸ hfa.1)
    · intro a ha
      rw [List.mem_append] at ha
      cases ha with
      | inl h1 =>
        have h2 := hseen a h1
        exact ⟨dedupFilter_mono_url _ _ _ _ h2.1, dedupFilter_mono_title _ _ _ _ h2.2⟩
      | inr h2 =>
        exact dedupFilter_kept_mem _ _ _ a h2

/-- Counterexample to C5 as stated: a run through `ingestAllSources` (the
entry point the admin ingest route calls) accepts both copies of the same
story from two feeds — the resulting batch contains two articles with the
identical normalized-title key (and identical empty URL key), so not every
ingestion run deduplicates. -/
theorem ingestAllSources_key_collision_cex :
    ((ingestAllSourcesBatch md5W envDup [srcA, srcB]).map titleKey) =
      ["same event reported", "same event reported"] ∧
    ¬ ((ingestAllSourcesBatch md5W envDup [srcA, srcB]).Pairwise
        (fun a b => titleKey a ≠ titleKey b ∧ a.url ≠ b.url)) :=
  ⟨by decide, by decide⟩

-- ===== C9: character set and trimming of cleanText =====

theorem mem_dropTrailing {p : Char → Bool} {l : List Char} {c : Char}
    (h : c ∈ dropTrailing p l) : c ∈ l := by
  unfold dropTrailing at h
  rw [List.mem_reverse] at h
  have h2 := (List.dropWhile_sublist p).subset h
  rwa [List.mem_reverse] at h2

theorem dropTrailing_append (p : Char → Bool) (l : List Char) :
    dropTrailing p l ++ (l.reverse.takeWhile p).reverse = l := by
  unfold dropTrailing
  rw [← List.reverse_append, List.takeWhile_append_dropWhile, List.reverse_reverse]

theorem head_dropTrailing {p : Char → Bool} {l : List Char} {c : Char}
    (h : (dropTrailing p l).head? = some c) : l.head? = some c := by
  cases hd : dropTrailing p l with
  | nil => rw [hd] at h; cases h
  | cons x xs =>
    rw [hd] at h
    simp only [List.head?_cons, Option.some.injEq] at h
    rw [← dropTrailing_append p l, hd]
    simp [h]

theorem mem_jsTrim {l : List Char} {c : Char} (h : c ∈ jsTrim l) : c ∈ l := by
  unfold jsTrim at h
  exact (List.dropWhile_sublist _).subset (mem_dropTrailing h)

theorem jsTrim_head_not_ws {l : List Char} {c : Char}
    (h : (jsTrim l).head? = some c) : isJsWs c = false := by
  unfold jsTrim at h
  have h2 := head_dropTrailing h
  have h3 := List.head?_dropWhile_not isJsWs l
  rw [h2] at h3
  simpa using h3

theorem jsTrim_getLast_not_ws {l : List Char} {c : Char}
    (h : (jsTrim l).getLast? = some c) : isJsWs c = false := by
  unfold jsTrim dropTrailing at h
  rw [List.getLast?_reverse] at h
  have h3 := List.head?_dropWhile_not isJsWs (l.dropWhile isJsWs).reverse
  rw [h] at h3
  simpa using h3

/-- C9 (amended): every character of a `cleanText` output is a word
character (ASCII letter, digit or underscore — the `\w` class, so
underscore survives), whitespace, or one of the kept punctuation marks
`.,!?;:()-"'` — in particular no `<` or `>` survives, hence no HTML markup —
and the output carries no leading and no trailing whitespace.  (Interior
runs of two or more whitespace characters CAN remain: removing a special
character can join two spaces, see the counterexample.) -/
theorem cleanText_charset (s : String) :
    ((cleanText s).data.all keepChar &&
     (cleanText s).data.head?.all (fun c => !isJsWs c) &&
     (cleanText s).data.getLast?.all (fun c => !isJsWs c)) = true := by
  have hd : (cleanText s).data = jsTrim ((collapseWs (stripTags s.data)).filter keepChar) := rfl
  rw [Bool.and_eq_true, Bool.and_eq_true]
  refine ⟨⟨?_, ?_⟩, ?_⟩
  · rw [List.all_eq_true]
    intro c hc
    rw [hd] at hc
    exact List.of_mem_filter (mem_jsTrim hc)
  · cases hh : (cleanText s).data.head? with
    | none => rfl
    | some c =>
      rw [hd] at hh
      simp [jsTrim_head_not_ws hh]
  · cases hh : (cleanText s).data.getLast? with
    | none => rfl
    | some c =>
      rw [hd] at hh
      simp [jsTrim_getLast_not_ws hh]

/-- Counterexample to C9 as stated: `cleanText "_a @ b"` keeps the
underscore (which is outside alphanumerics-plus-punctuation) and, because
the whitespace collapse runs before the special-character removal, the
removal of `@` leaves two consecutive spaces in the output. -/
theorem cleanText_charset_cex :
    cleanText "_a @ b" = "_a  b" ∧
    ((cleanText "_a @ b").data.all
        (fun c => c.isAlphanum || isJsWs c || isKeptPunct c)) = false ∧
    ((cleanText "_a @ b").data.drop 2).take 2 = [' ', ' '] ∧
    isJsWs ' ' = true :=
  ⟨by decide, by decide, by decide, by decide⟩
